import Mathlib

/-!
# The micro-ROS control node of `src/node.cpp`

A shallow embedding of the node lifecycle (`initialize_ros`, `teardown_ros`,
`error_loop`) and of the two callbacks (`timed_publish_trigger`,
`service_callback`).

* The global variables of the sketch are the fields of `NodeState`.
* Every call into the middleware is recorded, in program order, in
  `NodeState.calls`; its return code is an input, supplied by `Middleware`.
* Everything written to `Serial` is recorded in `NodeState.serial`.
* A function that does not come back to its caller (the `while (1)` of
  `error_loop`) ends in `Outcome.error_loop`, which no later statement leaves.
-/

namespace Node

/-! ## Machine integers -/

/-- Value of `x` after conversion to a `w`-bit two's-complement integer. -/
def wrapInt (w : Nat) (x : Int) : Int :=
  (x + 2 ^ (w - 1)) % 2 ^ w - 2 ^ (w - 1)

/-- Range of `int16_t`. -/
def isInt16 (x : Int) : Prop := -32768 ≤ x ∧ x ≤ 32767

/-- Range of `int` (32 bits on the ESP32). -/
def isInt32 (x : Int) : Prop := -2147483648 ≤ x ∧ x ≤ 2147483647

instance (x : Int) : Decidable (isInt16 x) := by unfold isInt16; infer_instance

instance (x : Int) : Decidable (isInt32 x) := by unfold isInt32; infer_instance

/-- Return code of a middleware call (`rcl_ret_t`, a 32-bit signed integer). -/
abbrev rcl_ret_t := Int

/-- Success code `RCL_RET_OK`. -/
def RCL_RET_OK : rcl_ret_t := 0

/-! ## Message buffers -/

/-- String terminator of C. -/
def NUL : Char := Char.ofNat 0

/-- A `rosidl_runtime_c__String`: `data` is the allocated store (one `Char` per
byte), so `data.length` is the number of bytes really allocated; a null
`data` pointer is the empty store. -/
structure rosidl_runtime_c__String where
  data : List Char
  size : Nat
  capacity : Nat
deriving DecidableEq, Repr

/-- A `std_msgs__msg__String`. -/
structure std_msgs__msg__String where
  data : rosidl_runtime_c__String
deriving DecidableEq, Repr

/-- The two fields of `test_msgs__srv__BasicTypes_Request` that `node.cpp`
names; the declaration itself is in the `test_msgs` package. -/
structure test_msgs__srv__BasicTypes_Request where
  int16_value : Int
  string_value : rosidl_runtime_c__String
deriving DecidableEq, Repr

/-- The two fields of `test_msgs__srv__BasicTypes_Response` that `node.cpp`
names. -/
structure test_msgs__srv__BasicTypes_Response where
  int16_value : Int
  string_value : rosidl_runtime_c__String
deriving DecidableEq, Repr

/-- A zero-initialised string (static storage): null data, no capacity. -/
def zero_string : rosidl_runtime_c__String := ⟨[], 0, 0⟩

/-- The store a string gets from `micro_ros_utilities_create_message_memory`:
`cap` bytes, size 0.  The library is not part of the sketch; the bytes are
taken to be zero, and no theorem below depends on their value. -/
def allocated_string (cap : Nat) : rosidl_runtime_c__String :=
  ⟨List.replicate cap NUL, 0, cap⟩

/-- The allocated store has exactly `capacity` bytes. -/
def well_formed (b : rosidl_runtime_c__String) : Prop :=
  b.data.length = b.capacity

instance (b : rosidl_runtime_c__String) : Decidable (well_formed b) := by
  unfold well_formed; infer_instance

/-- Text produced by the conversion `%d` of `printf` for an `int`: a minus sign
for a negative value, then the decimal digits of the magnitude. -/
def fmt_d (v : Int) : List Char :=
  if v < 0 then '-' :: (Nat.repr v.natAbs).toList else (Nat.repr v.natAbs).toList

/-- The call `sprintf(dst, "%s", text)` on a store `dst`: writes the characters
of `text` and the terminator from offset 0.  `none` when that does not fit in
the store (a write out of bounds, undefined in C). -/
def sprintf (dst : List Char) (text : List Char) : Option (List Char) :=
  if text.length + 1 ≤ dst.length then
    some (text ++ NUL :: dst.drop (text.length + 1))
  else
    none

/-- The call `strlen(p)`: number of bytes before the first terminator. -/
def strlen (p : List Char) : Nat :=
  (p.takeWhile (fun c => c != NUL)).length

/-- The bytes of a string message that are valid: the first `size` ones. -/
def text (b : rosidl_runtime_c__String) : List Char :=
  b.data.take b.size

/-! ## The node state and its environment -/

/-- The three message stores the node owns. -/
inductive Message
  | request
  | response
  | msg
deriving DecidableEq, Repr

/-- A call into the middleware, the Arduino core or the utilities library, with
the arguments that `node.cpp` chooses and, when the call returns an
`rcl_ret_t`, the code it returned. -/
inductive Call
  | set_microros_wifi_transports
  | rcl_get_default_allocator
  | rclc_support_init (rc : rcl_ret_t)
  | rcl_get_zero_initialized_node
  | rclc_node_init_default (name : String) (namespace_ : String) (rc : rcl_ret_t)
  | rclc_executor_get_zero_initialized_executor
  | rclc_executor_init (number_of_handles : Int) (rc : rcl_ret_t)
  | rclc_executor_set_timeout (timeout_ns : Int) (rc : rcl_ret_t)
  | micro_ros_utilities_create_message_memory (m : Message)
  | rclc_service_init_default (service_name : String) (rc : rcl_ret_t)
  | rclc_executor_add_service (rc : rcl_ret_t)
  | rclc_publisher_init_default (topic_name : String) (rc : rcl_ret_t)
  | rclc_timer_init_default (timeout_ns : Int) (rc : rcl_ret_t)
  | rclc_executor_add_timer (rc : rcl_ret_t)
  | rcl_publish (msg : std_msgs__msg__String) (rc : rcl_ret_t)
  | rcl_publisher_fini (rc : rcl_ret_t)
  | rcl_service_fini (rc : rcl_ret_t)
  | rcl_node_fini (rc : rcl_ret_t)
  | rcl_timer_fini (rc : rcl_ret_t)
  | rclc_executor_fini (rc : rcl_ret_t)
  | rclc_support_fini (rc : rcl_ret_t)
  | micro_ros_utilities_destroy_message_memory (m : Message)
  | delay (ms : Nat)
  | digitalWrite (pin : Nat) (level : Bool)
deriving DecidableEq, Repr

/-- One output on `Serial`.  `rc_error rc line` is the line
`(!=<rc>) [line <line>] [<error string>]` of `RCCHECK` and `RCSOFTCHECK`; the
error string comes from `rcutils` and is not modelled. -/
inductive SerialOut
  | text (s : String)
  | rc_error (rc : rcl_ret_t) (line : Nat)
deriving DecidableEq, Repr

/-- The global variables of `node.cpp`, the level of the LED pin, and the two
logs. -/
structure NodeState where
  uros_initialized : Bool
  counter : Int
  request : test_msgs__srv__BasicTypes_Request
  response : test_msgs__srv__BasicTypes_Response
  msg : std_msgs__msg__String
  led : Bool
  calls : List Call
  serial : List SerialOut
deriving DecidableEq, Repr

/-- The globals as their initialisers leave them at process start. -/
def process_start : NodeState where
  uros_initialized := false
  counter := 0
  request := ⟨0, zero_string⟩
  response := ⟨0, zero_string⟩
  msg := ⟨zero_string⟩
  led := false
  calls := []
  serial := []

/-- Capacity of the executor: `int num_execution_handles = 2;`. -/
def num_execution_handles : Int := 2

/-- `#define LED_PIN 2`. -/
def LED_PIN : Nat := 2

/-- `RCL_MS_TO_NS`. -/
def RCL_MS_TO_NS (ms : Int) : Int := ms * 1000000

/-- What the environment decides: the return code of every middleware call
(`rclc_publisher_init_default` is called repeatedly, so it has one code per
attempt, counted from 0) and the string capacity of
`micro_ros_utilities_memory_conf_default`. -/
structure Middleware where
  max_string_capacity : Nat
  rclc_support_init : rcl_ret_t
  rclc_node_init_default : rcl_ret_t
  rclc_executor_init : rcl_ret_t
  rclc_executor_set_timeout : rcl_ret_t
  rclc_service_init_default : rcl_ret_t
  rclc_executor_add_service : rcl_ret_t
  rclc_publisher_init_default : Nat → rcl_ret_t
  rclc_timer_init_default : rcl_ret_t
  rclc_executor_add_timer : rcl_ret_t
  rcl_publisher_fini : rcl_ret_t
  rcl_service_fini : rcl_ret_t
  rcl_node_fini : rcl_ret_t
  rcl_timer_fini : rcl_ret_t
  rclc_executor_fini : rcl_ret_t
  rclc_support_fini : rcl_ret_t

/-- Record a call. -/
def NodeState.call (s : NodeState) (c : Call) : NodeState :=
  { s with calls := s.calls ++ [c] }

/-- Record an output on `Serial`. -/
def NodeState.print (s : NodeState) (o : SerialOut) : NodeState :=
  { s with serial := s.serial ++ [o] }

/-- The call `Serial.print(t)` (also `println`, whose line end is part of
`t`). -/
def Serial_print (t : String) (s : NodeState) : NodeState :=
  s.print (SerialOut.text t)

/-- How a function of `node.cpp` ends. -/
inductive Outcome
  /-- It returned to its caller, leaving state `s`. -/
  | returned (s : NodeState)
  /-- Control entered the `while (1)` of `error_loop` with state `s` and never
  comes back. -/
  | error_loop (s : NodeState)
  /-- The `do ... while` of `RCCRETRY` was still running, in state `s`, when
  the fuel ran out. -/
  | retrying (s : NodeState)
  /-- A write went out of the bounds of its store. -/
  | undefined
deriving DecidableEq, Repr

/-- Sequencing of statements: what follows runs only when the first part
returned. -/
def Outcome.bind (o : Outcome) (f : NodeState → Outcome) : Outcome :=
  match o with
  | Outcome.returned s => f s
  | Outcome.error_loop s => Outcome.error_loop s
  | Outcome.retrying s => Outcome.retrying s
  | Outcome.undefined => Outcome.undefined

/-- The state an outcome carries. -/
def Outcome.state? (o : Outcome) : Option NodeState :=
  match o with
  | Outcome.returned s => some s
  | Outcome.error_loop s => some s
  | Outcome.retrying s => some s
  | Outcome.undefined => none

/-! ## Teardown and the error loop -/

/-- The function `teardown_ros` (lines 82-110).  The sum of the return codes is
kept in the 32-bit `rc`.  A released message store is left as a null string,
so that a later write to it is out of bounds. -/
def teardown_ros (mw : Middleware) (s : NodeState) : NodeState :=
  if s.uros_initialized then
    let rc : rcl_ret_t := mw.rcl_publisher_fini
    let s := s.call (Call.rcl_publisher_fini mw.rcl_publisher_fini)
    let rc := wrapInt 32 (rc + mw.rcl_service_fini)
    let s := s.call (Call.rcl_service_fini mw.rcl_service_fini)
    let rc := wrapInt 32 (rc + mw.rcl_node_fini)
    let s := s.call (Call.rcl_node_fini mw.rcl_node_fini)
    let rc := wrapInt 32 (rc + mw.rcl_timer_fini)
    let s := s.call (Call.rcl_timer_fini mw.rcl_timer_fini)
    let rc := wrapInt 32 (rc + mw.rclc_executor_fini)
    let s := s.call (Call.rclc_executor_fini mw.rclc_executor_fini)
    let rc := wrapInt 32 (rc + mw.rclc_support_fini)
    let s := s.call (Call.rclc_support_fini mw.rclc_support_fini)
    let s := { s.call (Call.micro_ros_utilities_destroy_message_memory Message.msg) with
      msg := ⟨zero_string⟩ }
    let s := { s.call (Call.micro_ros_utilities_destroy_message_memory Message.request) with
      request := { s.request with string_value := zero_string } }
    let s := { s.call (Call.micro_ros_utilities_destroy_message_memory Message.response) with
      response := { s.response with string_value := zero_string } }
    let s := if rc ≠ RCL_RET_OK then Serial_print "Error while cleaning up!\r\n" s else s
    { s with uros_initialized := false }
  else
    s

/-- One turn of the `while (1)` of `error_loop` (lines 118-120). -/
def error_loop_body (s : NodeState) : NodeState :=
  let s := Serial_print "error loop\r\n" s
  let s := s.call (Call.delay 200)
  { s.call (Call.digitalWrite LED_PIN (!s.led)) with led := !s.led }

/-- The function `error_loop` (lines 115-122): the teardown, then the loop that
is never left.  The state is the one the loop is entered with. -/
def error_loop (mw : Middleware) (s : NodeState) : Outcome :=
  Outcome.error_loop (teardown_ros mw s)

/-- The state after `n` turns of the loop of `error_loop`. -/
def error_loop_turns (n : Nat) (s : NodeState) : NodeState :=
  error_loop_body^[n] s

/-! ## The error handling macros -/

/-- The macro `RCCHECK(fn, error_loop())` used at line `line`: `temp_rc` is what
`fn` returned. -/
def RCCHECK (mw : Middleware) (line : Nat) (fn : rcl_ret_t → Call) (temp_rc : rcl_ret_t)
    (s : NodeState) : Outcome :=
  let s := s.call (fn temp_rc)
  if temp_rc ≠ RCL_RET_OK then
    error_loop mw (s.print (SerialOut.rc_error temp_rc line))
  else
    Outcome.returned s

/-- The macro `RCCRETRY(fn)`: attempt number `i` of `fn` returns `rcs i`; the
loop goes on while the code is not `RCL_RET_OK`.  `fuel` bounds the number of
attempts that are followed. -/
def RCCRETRY (fn : rcl_ret_t → Call) (rcs : Nat → rcl_ret_t) :
    Nat → Nat → NodeState → Outcome
  | 0, _, s => Outcome.retrying s
  | fuel + 1, i, s =>
    let s := s.call (fn (rcs i))
    if rcs i ≠ RCL_RET_OK then RCCRETRY fn rcs fuel (i + 1) s else Outcome.returned s

/-- The macro `RCSOFTCHECK(fn)` used at line `line`. -/
def RCSOFTCHECK (line : Nat) (fn : rcl_ret_t → Call) (temp_rc : rcl_ret_t)
    (s : NodeState) : NodeState :=
  let s := s.call (fn temp_rc)
  if temp_rc ≠ RCL_RET_OK then s.print (SerialOut.rc_error temp_rc line) else s

/-! ## The callbacks -/

/-- The function `timed_publish_trigger` (lines 127-137).  `timer` is `none`
for a null handle; `publish_rc` is what `rcl_publish` returns.  `counter` is
a 32-bit `int`: `counter++` at the largest value overflows, which the model
takes to wrap around as the two's-complement hardware does. -/
def timed_publish_trigger (publish_rc : rcl_ret_t) (timer : Option Unit)
    (last_call_time : Int) (s : NodeState) : Outcome :=
  let _ := last_call_time
  match timer with
  | some _ =>
    let arg := s.counter
    let s := { s with counter := wrapInt 32 (s.counter + 1) }
    match sprintf s.msg.data.data (fmt_d arg) with
    | none => Outcome.undefined
    | some written =>
      let s := { s with msg := ⟨{ s.msg.data with data := written }⟩ }
      let s := { s with msg := ⟨{ s.msg.data with size := strlen s.msg.data.data }⟩ }
      let s := Serial_print ("^ [" ++ String.mk (s.msg.data.data.take (strlen s.msg.data.data))
        ++ "]") s
      Outcome.returned (RCSOFTCHECK 133 (Call.rcl_publish s.msg) publish_rc s)
  | none => Outcome.returned (Serial_print "_" s)

/-- The function `service_callback` (lines 142-150) on the request and the
response it is given; the second component is what it writes to `Serial`.
The subtraction is done in `int`, the assignment converts to `int16_t`. -/
def service_callback (_request : test_msgs__srv__BasicTypes_Request)
    (_response : test_msgs__srv__BasicTypes_Response) :
    test_msgs__srv__BasicTypes_Response × List SerialOut :=
  let out := [SerialOut.text "~"]
  let _response := { _response with int16_value := wrapInt 16 (_request.int16_value - 1) }
  (_response, out ++ [SerialOut.text ("Control/State: " ++ String.mk (fmt_d _request.int16_value)
    ++ " / " ++ String.mk (fmt_d _response.int16_value) ++ "~\n")])

/-! ## Initialization -/

/-- The effect of `micro_ros_utilities_create_message_memory` on the store of
message `m`: every string of the message gets `max_string_capacity` bytes. -/
def create_message_memory (mw : Middleware) (m : Message) (s : NodeState) : NodeState :=
  let s := s.call (Call.micro_ros_utilities_create_message_memory m)
  match m with
  | Message.request =>
    { s with request := { s.request with string_value := allocated_string mw.max_string_capacity } }
  | Message.response =>
    { s with response := { s.response with string_value := allocated_string mw.max_string_capacity } }
  | Message.msg => { s with msg := ⟨allocated_string mw.max_string_capacity⟩ }

/-- The function `initialize_ros` (lines 155-208).  `fuel` bounds the number of
attempts of the publisher creation that are followed. -/
def initialize_ros (mw : Middleware) (fuel : Nat) (s : NodeState) : Outcome :=
  let s := Serial_print "Initializing ros" s
  let s := s.call Call.set_microros_wifi_transports
  let s := Serial_print "." s
  let s := s.call Call.rcl_get_default_allocator
  let s := Serial_print "." s
  (RCCHECK mw 165 Call.rclc_support_init mw.rclc_support_init s).bind fun s =>
  let s := Serial_print "." s
  let s := s.call Call.rcl_get_zero_initialized_node
  let s := Serial_print "." s
  (RCCHECK mw 171 (Call.rclc_node_init_default "control_node" "robot")
    mw.rclc_node_init_default s).bind fun s =>
  let s := Serial_print "." s
  let s := s.call Call.rclc_executor_get_zero_initialized_executor
  let s := Serial_print "." s
  (RCCHECK mw 177 (Call.rclc_executor_init num_execution_handles)
    mw.rclc_executor_init s).bind fun s =>
  let s := Serial_print "." s
  (RCCHECK mw 179 (Call.rclc_executor_set_timeout (RCL_MS_TO_NS 2000))
    mw.rclc_executor_set_timeout s).bind fun s =>
  let s := Serial_print "." s
  let s := create_message_memory mw Message.request s
  let s := Serial_print "." s
  let s := create_message_memory mw Message.response s
  let s := Serial_print "." s
  (RCCHECK mw 187 (Call.rclc_service_init_default "/control")
    mw.rclc_service_init_default s).bind fun s =>
  let s := Serial_print "." s
  (RCCHECK mw 189 Call.rclc_executor_add_service mw.rclc_executor_add_service s).bind fun s =>
  let timer_timeout_ms : Int := 5000
  let s := Serial_print "." s
  let s := create_message_memory mw Message.msg s
  let s := Serial_print "." s
  (RCCRETRY (Call.rclc_publisher_init_default "chatter") mw.rclc_publisher_init_default
    fuel 0 s).bind fun s =>
  let s := Serial_print "." s
  (RCCHECK mw 198 (Call.rclc_timer_init_default (RCL_MS_TO_NS timer_timeout_ms))
    mw.rclc_timer_init_default s).bind fun s =>
  let s := Serial_print "." s
  (RCCHECK mw 200 Call.rclc_executor_add_timer mw.rclc_executor_add_timer s).bind fun s =>
  let s := Serial_print "." s
  let s := { s with uros_initialized := true }
  Outcome.returned (Serial_print "Done\r\n" s)

/-- A middleware in which every call succeeds at once, with strings of 20
bytes. -/
def all_ok : Middleware where
  max_string_capacity := 20
  rclc_support_init := RCL_RET_OK
  rclc_node_init_default := RCL_RET_OK
  rclc_executor_init := RCL_RET_OK
  rclc_executor_set_timeout := RCL_RET_OK
  rclc_service_init_default := RCL_RET_OK
  rclc_executor_add_service := RCL_RET_OK
  rclc_publisher_init_default := fun _ => RCL_RET_OK
  rclc_timer_init_default := RCL_RET_OK
  rclc_executor_add_timer := RCL_RET_OK
  rcl_publisher_fini := RCL_RET_OK
  rcl_service_fini := RCL_RET_OK
  rcl_node_fini := RCL_RET_OK
  rcl_timer_fini := RCL_RET_OK
  rclc_executor_fini := RCL_RET_OK
  rclc_support_fini := RCL_RET_OK

/-- The timer firing once per element of `rcs`, the codes `rcl_publish` returns
in turn. -/
def timer_firings : List rcl_ret_t → NodeState → Outcome
  | [], s => Outcome.returned s
  | rc :: rcs, s => (timed_publish_trigger rc (some ()) 0 s).bind (timer_firings rcs)

/-- The payloads handed to `rcl_publish`, oldest first: the valid bytes and the
size field of each. -/
def published (calls : List Call) : List (List Char × Nat) :=
  calls.filterMap fun c =>
    match c with
    | Call.rcl_publish m _ => some (text m.data, m.data.size)
    | _ => none

/-- A node just brought up by `initialize_ros` on a middleware where every
call succeeds. -/
def fresh_node : NodeState :=
  match initialize_ros all_ok 1 process_start with
  | Outcome.returned s => s
  | _ => process_start

/-- Index of the first attempt, among attempts `i`, ..., `i + fuel - 1`, whose
code in `rcs` is `RCL_RET_OK`. -/
def first_ok (rcs : Nat → rcl_ret_t) : Nat → Nat → Option Nat
  | 0, _ => none
  | fuel + 1, i => if rcs i ≠ RCL_RET_OK then first_ok rcs fuel (i + 1) else some i

/-- The calls of `n` successive attempts of `fn`, from attempt `i` on. -/
def attempts (fn : rcl_ret_t → Call) (rcs : Nat → rcl_ret_t) (i n : Nat) : List Call :=
  (List.range' i n).map fun j => fn (rcs j)

/-- The calls of lines 157-194 of `initialize_ros`, in program order: all that
comes before the creation of the publisher. -/
def calls_before_publisher (mw : Middleware) : List Call :=
  [Call.set_microros_wifi_transports,
   Call.rcl_get_default_allocator,
   Call.rclc_support_init mw.rclc_support_init,
   Call.rcl_get_zero_initialized_node,
   Call.rclc_node_init_default "control_node" "robot" mw.rclc_node_init_default,
   Call.rclc_executor_get_zero_initialized_executor,
   Call.rclc_executor_init num_execution_handles mw.rclc_executor_init,
   Call.rclc_executor_set_timeout (RCL_MS_TO_NS 2000) mw.rclc_executor_set_timeout,
   Call.micro_ros_utilities_create_message_memory Message.request,
   Call.micro_ros_utilities_create_message_memory Message.response,
   Call.rclc_service_init_default "/control" mw.rclc_service_init_default,
   Call.rclc_executor_add_service mw.rclc_executor_add_service,
   Call.micro_ros_utilities_create_message_memory Message.msg]

/-- A fail-fast step (a call wrapped in `RCCHECK`) that returned a code other
than `RCL_RET_OK`. -/
def Call.failed : Call → Bool
  | Call.rclc_support_init rc => rc != RCL_RET_OK
  | Call.rclc_node_init_default _ _ rc => rc != RCL_RET_OK
  | Call.rclc_executor_init _ rc => rc != RCL_RET_OK
  | Call.rclc_executor_set_timeout _ rc => rc != RCL_RET_OK
  | Call.rclc_service_init_default _ rc => rc != RCL_RET_OK
  | Call.rclc_executor_add_service rc => rc != RCL_RET_OK
  | Call.rclc_timer_init_default _ rc => rc != RCL_RET_OK
  | Call.rclc_executor_add_timer rc => rc != RCL_RET_OK
  | _ => false

/-- A call that releases a resource: one of the `fini` calls or the release
of a message store. -/
def Call.releases : Call → Bool
  | Call.rcl_publisher_fini _ => true
  | Call.rcl_service_fini _ => true
  | Call.rcl_node_fini _ => true
  | Call.rcl_timer_fini _ => true
  | Call.rclc_executor_fini _ => true
  | Call.rclc_support_fini _ => true
  | Call.micro_ros_utilities_destroy_message_memory _ => true
  | _ => false

/-- A call that creates a resource, successfully. -/
def Call.creates : Call → Bool
  | Call.rclc_support_init rc => rc == RCL_RET_OK
  | Call.rclc_node_init_default _ _ rc => rc == RCL_RET_OK
  | Call.rclc_executor_init _ rc => rc == RCL_RET_OK
  | Call.rclc_service_init_default _ rc => rc == RCL_RET_OK
  | Call.rclc_publisher_init_default _ rc => rc == RCL_RET_OK
  | Call.rclc_timer_init_default _ rc => rc == RCL_RET_OK
  | Call.micro_ros_utilities_create_message_memory _ => true
  | _ => false

/-- The endpoints registered with the executor, oldest first: the `add` calls
that returned `RCL_RET_OK`. -/
def registered (calls : List Call) : List Call :=
  calls.filter fun c =>
    match c with
    | Call.rclc_executor_add_service rc => rc == RCL_RET_OK
    | Call.rclc_executor_add_timer rc => rc == RCL_RET_OK
    | _ => false

/-- The `add` calls made on the executor, whatever they returned. -/
def add_calls (calls : List Call) : List Call :=
  calls.filter fun c =>
    match c with
    | Call.rclc_executor_add_service _ => true
    | Call.rclc_executor_add_timer _ => true
    | _ => false

/-- The capacities the executor was created with: the handle counts of the
`rclc_executor_init` calls that returned `RCL_RET_OK`. -/
def declared_capacity (calls : List Call) : List Int :=
  calls.filterMap fun c =>
    match c with
    | Call.rclc_executor_init n rc => if rc = RCL_RET_OK then some n else none
    | _ => none

/-- The calls made since state `s0`. -/
def calls_since (s0 s : NodeState) : List Call :=
  s.calls.drop s0.calls.length

/-- The middleware `all_ok` except that the creation of the node fails. -/
def node_creation_fails : Middleware :=
  { all_ok with rclc_node_init_default := 1 }


/-- The number of calls `initialize_ros` has made when the first of the six
fail-fast steps that come before the creation of the publisher has failed;
`none` when all six succeed. -/
def early_failure (mw : Middleware) : Option Nat :=
  if mw.rclc_support_init ≠ RCL_RET_OK then some 3
  else if mw.rclc_node_init_default ≠ RCL_RET_OK then some 5
  else if mw.rclc_executor_init ≠ RCL_RET_OK then some 7
  else if mw.rclc_executor_set_timeout ≠ RCL_RET_OK then some 8
  else if mw.rclc_service_init_default ≠ RCL_RET_OK then some 11
  else if mw.rclc_executor_add_service ≠ RCL_RET_OK then some 12
  else none

/-- The middleware `all_ok` except that the creation of the publisher fails
twice before it succeeds. -/
def publisher_retries : Middleware :=
  { all_ok with rclc_publisher_init_default := fun i => if i < 2 then 1 else RCL_RET_OK }

/-- The node brought up by `initialize_ros` on `publisher_retries`. -/
def retried_node : NodeState :=
  match initialize_ros publisher_retries 5 process_start with
  | Outcome.returned s => s
  | _ => process_start

/-- The state in which the error loop is entered when the creation of the node
fails at process start. -/
def node_failure_state : NodeState :=
  match initialize_ros node_creation_fails 1 process_start with
  | Outcome.error_loop s => s
  | _ => process_start

/-! ## Arithmetic of the machine integers -/

theorem wrapInt_of_isInt16 (x : Int) (h : isInt16 x) : wrapInt 16 x = x := by
  unfold isInt16 at h
  unfold wrapInt
  norm_num
  omega

theorem wrapInt_of_isInt32 (x : Int) (h : isInt32 x) : wrapInt 32 x = x := by
  unfold isInt32 at h
  unfold wrapInt
  norm_num
  omega

theorem isInt32_wrapInt (x : Int) : isInt32 (wrapInt 32 x) := by
  unfold isInt32 wrapInt
  norm_num
  omega

theorem wrapInt_add_wrapInt (a b : Int) : wrapInt 32 (wrapInt 32 a + b) = wrapInt 32 (a + b) := by
  unfold wrapInt
  norm_num
  omega

/-! ## The service callback -/

/-- C1 (as amended): for every request whose `int16_value` holds a 16-bit
value `v` other than -32768, `service_callback` leaves `v - 1` in the
response's `int16_value`; for `v = -32768` it leaves 32767.  The other field
of the response is untouched. -/
theorem service_callback_decrements (req : test_msgs__srv__BasicTypes_Request)
    (res : test_msgs__srv__BasicTypes_Response) (h : isInt16 req.int16_value) :
    (req.int16_value ≠ -32768 →
      (service_callback req res).1.int16_value = req.int16_value - 1) ∧
    (req.int16_value = -32768 → (service_callback req res).1.int16_value = 32767) ∧
    (service_callback req res).1.string_value = res.string_value := by
  refine ⟨fun hne => ?_, fun heq => ?_, rfl⟩
  · have h16 : isInt16 (req.int16_value - 1) := by
      unfold isInt16 at h ⊢
      omega
    simpa [service_callback] using wrapInt_of_isInt16 _ h16
  · simp [service_callback, heq, wrapInt]

/-- The scenario of C1: the request holding 5 gives the response holding 4. -/
theorem service_callback_decrements_witness :
    isInt16 5 ∧ (service_callback ⟨5, zero_string⟩ ⟨0, zero_string⟩).1.int16_value = 5 - 1 :=
  ⟨by decide,
    (service_callback_decrements ⟨5, zero_string⟩ ⟨0, zero_string⟩ (by decide)).1 (by decide)⟩

/-- C1 as stated fails: the request holding -32768 is a valid 16-bit value and
the response does not hold -32769. -/
theorem service_callback_not_always_decrement :
    ¬ ∀ (req : test_msgs__srv__BasicTypes_Request) (res : test_msgs__srv__BasicTypes_Response),
      isInt16 req.int16_value →
        (service_callback req res).1.int16_value = req.int16_value - 1 := by
  intro h
  have h1 := h ⟨-32768, zero_string⟩ ⟨0, zero_string⟩ (by decide)
  revert h1
  decide

/-! ## Formatting and the string store -/

theorem digitChar_ne_NUL (n : Nat) : Nat.digitChar (n % 10) ≠ NUL := by
  have h : n % 10 < 10 := Nat.mod_lt _ (by decide)
  generalize n % 10 = d at h
  interval_cases d <;> decide

theorem toDigitsCore_ne_NUL (fuel : Nat) : ∀ (n : Nat) (acc : List Char),
    (∀ c ∈ acc, c ≠ NUL) → ∀ c ∈ Nat.toDigitsCore 10 fuel n acc, c ≠ NUL := by
  induction fuel with
  | zero => intro n acc h; simpa [Nat.toDigitsCore] using h
  | succ f ih =>
    intro n acc h
    have hacc : ∀ c ∈ Nat.digitChar (n % 10) :: acc, c ≠ NUL := by
      intro c hc
      rcases List.mem_cons.1 hc with rfl | hc
      · exact digitChar_ne_NUL _
      · exact h c hc
    simp only [Nat.toDigitsCore]
    split_ifs
    · exact hacc
    · exact ih _ _ hacc

theorem repr_ne_NUL (n : Nat) : ∀ c ∈ (Nat.repr n).toList, c ≠ NUL := by
  simpa [Nat.repr, Nat.toDigits, String.toList, List.asString] using
    toDigitsCore_ne_NUL (n + 1) n [] (by simp)

theorem fmt_d_ne_NUL (v : Int) : ∀ c ∈ fmt_d v, c ≠ NUL := by
  intro c hc
  unfold fmt_d at hc
  split_ifs at hc
  · rcases List.mem_cons.1 hc with rfl | hc
    · decide
    · exact repr_ne_NUL _ c hc
  · exact repr_ne_NUL _ c hc

theorem repr_toList_length (n e : Nat) (he : 0 < e) (h : n < 10 ^ e) :
    (Nat.repr n).toList.length ≤ e := by
  exact Nat.repr_length n e he h

theorem fmt_d_length_le (v : Int) (h : isInt32 v) : (fmt_d v).length ≤ 11 := by
  unfold isInt32 at h
  have hn : v.natAbs < 10 ^ 10 := by omega
  have := repr_toList_length v.natAbs 10 (by decide) hn
  unfold fmt_d
  split_ifs
  · rw [List.length_cons]
    omega
  · omega

theorem fmt_d_nonneg (v : Int) (h : 0 ≤ v) : fmt_d v = (Nat.repr v.toNat).toList := by
  unfold fmt_d
  have : ¬ v < 0 := by omega
  simp only [this, if_false]
  congr 2
  omega

theorem strlen_append_NUL (t rest : List Char) (h : ∀ c ∈ t, c ≠ NUL) :
    strlen (t ++ NUL :: rest) = t.length := by
  unfold strlen
  induction t with
  | nil => simp
  | cons a t ih =>
    have ha : a ≠ NUL := h a (List.mem_cons_self _ _)
    have ht : ∀ c ∈ t, c ≠ NUL := fun c hc => h c (List.mem_cons_of_mem _ hc)
    simp [ha, ih ht]

theorem sprintf_fits (dst t : List Char) (h : t.length < dst.length) :
    sprintf dst t = some (t ++ NUL :: dst.drop (t.length + 1)) := by
  unfold sprintf
  rw [if_pos (by omega)]

theorem sprintf_length (dst t : List Char) (h : t.length < dst.length) :
    (t ++ NUL :: dst.drop (t.length + 1)).length = dst.length := by
  simp
  omega

/-! ## The timer callback -/

theorem timed_publish_trigger_spec (rc : rcl_ret_t) (t : Unit) (lct : Int) (s : NodeState)
    (hwf : well_formed s.msg.data) (hlen : (fmt_d s.counter).length < s.msg.data.capacity) :
    ∃ s1, timed_publish_trigger rc (some t) lct s = Outcome.returned s1 ∧
      s1.counter = wrapInt 32 (s.counter + 1) ∧
      s1.uros_initialized = s.uros_initialized ∧
      s1.msg.data.capacity = s.msg.data.capacity ∧
      well_formed s1.msg.data ∧
      s1.msg.data.size = (fmt_d s.counter).length ∧
      text s1.msg.data = fmt_d s.counter ∧
      s1.calls = s.calls ++ [Call.rcl_publish s1.msg rc] := by
  unfold well_formed at hwf
  have hfit : (fmt_d s.counter).length < s.msg.data.data.length := by omega
  have hlen2 := sprintf_length _ _ hfit
  have hstr := strlen_append_NUL (fmt_d s.counter)
    (s.msg.data.data.drop ((fmt_d s.counter).length + 1)) (fmt_d_ne_NUL _)
  unfold timed_publish_trigger
  simp only [sprintf_fits _ _ hfit, hstr]
  refine ⟨_, rfl, ?_⟩
  by_cases hrc : rc = RCL_RET_OK
  · simp [RCSOFTCHECK, hrc, Serial_print, NodeState.print, NodeState.call, well_formed, text,
      hlen2, hwf]
  · simp [RCSOFTCHECK, hrc, Serial_print, NodeState.print, NodeState.call, well_formed, text,
      hlen2, hwf]

theorem published_append_publish (calls : List Call) (m : std_msgs__msg__String) (rc : rcl_ret_t) :
    published (calls ++ [Call.rcl_publish m rc]) = published calls ++ [(text m.data, m.data.size)] := by
  simp [published, List.filterMap_append]

theorem timer_firings_spec (rcs : List rcl_ret_t) : ∀ (s : NodeState),
    well_formed s.msg.data → 12 ≤ s.msg.data.capacity → isInt32 s.counter →
    ∃ s1, timer_firings rcs s = Outcome.returned s1 ∧
      s1.counter = wrapInt 32 (s.counter + rcs.length) ∧
      s1.uros_initialized = s.uros_initialized ∧
      s1.msg.data.capacity = s.msg.data.capacity ∧
      well_formed s1.msg.data ∧
      published s1.calls = published s.calls ++ (List.range rcs.length).map
        (fun (i : Nat) => (fmt_d (wrapInt 32 (s.counter + (i : Int))),
          (fmt_d (wrapInt 32 (s.counter + (i : Int)))).length)) := by
  induction rcs with
  | nil =>
    intro s hwf _ hc
    exact ⟨s, rfl, by simp [wrapInt_of_isInt32 _ hc], rfl, rfl, hwf, by simp⟩
  | cons rc rcs ih =>
    intro s hwf hcap hc
    have hlen : (fmt_d s.counter).length < s.msg.data.capacity := by
      have := fmt_d_length_le _ hc
      omega
    obtain ⟨s1, hs1, hcnt1, hini1, hcap1, hwf1, hsize1, htext1, hcalls1⟩ :=
      timed_publish_trigger_spec rc () 0 s hwf hlen
    obtain ⟨s2, hs2, hcnt2, hini2, hcap2, hwf2, hpub2⟩ :=
      ih s1 hwf1 (by omega) (by rw [hcnt1]; exact isInt32_wrapInt _)
    refine ⟨s2, ?_, ?_, ?_, ?_, hwf2, ?_⟩
    · simp [timer_firings, hs1, Outcome.bind, hs2]
    · rw [hcnt2, hcnt1, wrapInt_add_wrapInt]
      congr 1
      simp only [List.length_cons]
      push_cast
      ring
    · rw [hini2, hini1]
    · rw [hcap2, hcap1]
    · rw [hpub2, hcalls1, published_append_publish, htext1, hsize1, hcnt1]
      simp only [List.length_cons, List.range_succ_eq_map, List.map_cons, List.map_map,
        List.append_assoc, List.singleton_append]
      congr 2
      · simp [wrapInt_of_isInt32 _ hc]
      · apply List.map_congr_left
        intro i _
        simp only [Function.comp, wrapInt_add_wrapInt]
        have : s.counter + 1 + (i : Int) = s.counter + ((i + 1 : Nat) : Int) := by
          push_cast
          ring
        rw [this]

theorem fresh_node_facts :
    well_formed fresh_node.msg.data ∧ fresh_node.msg.data.capacity = 20 ∧
      fresh_node.counter = 0 ∧ published fresh_node.calls = [] ∧
      fresh_node.uros_initialized = true := by
  decide

/-- C2 (as amended): from `counter = 0`, after any number of timer firings
below 2147483647, one more invocation of `timed_publish_trigger` with a
non-null timer returns normally (the error loop is not entered), increases
`counter` by exactly 1 and leaves `uros_initialized` as it was, whatever code
`rcl_publish` returns.  The publish store is assumed to be allocated with at
least 12 bytes. -/
theorem counter_advances_on_every_firing (rcs : List rcl_ret_t) (rc : rcl_ret_t) (t : Unit)
    (lct : Int) (s : NodeState) (hwf : well_formed s.msg.data)
    (hcap : 12 ≤ s.msg.data.capacity) (h0 : s.counter = 0)
    (hn : rcs.length < 2147483647) :
    ∃ s1 s2, timer_firings rcs s = Outcome.returned s1 ∧
      s1.counter = rcs.length ∧
      timed_publish_trigger rc (some t) lct s1 = Outcome.returned s2 ∧
      s2.counter = s1.counter + 1 ∧
      s2.uros_initialized = s1.uros_initialized ∧
      s2.uros_initialized = s.uros_initialized := by
  have hc0 : isInt32 s.counter := by rw [h0]; decide
  obtain ⟨s1, hs1, hcnt1, hini1, hcap1, hwf1, -⟩ := timer_firings_spec rcs s hwf hcap hc0
  have hr : isInt32 (rcs.length : Int) := by
    unfold isInt32
    omega
  have hcnt : s1.counter = rcs.length := by
    rw [hcnt1, h0, zero_add]
    exact wrapInt_of_isInt32 _ hr
  have hlen : (fmt_d s1.counter).length < s1.msg.data.capacity := by
    have := fmt_d_length_le s1.counter (by rw [hcnt]; exact hr)
    omega
  obtain ⟨s2, hs2, hcnt2, hini2, -⟩ := timed_publish_trigger_spec rc t lct s1 hwf1 hlen
  refine ⟨s1, s2, hs1, hcnt, hs2, ?_, hini2, by rw [hini2, hini1]⟩
  rw [hcnt2]
  apply wrapInt_of_isInt32
  unfold isInt32
  omega

/-- Two firings, then a third whose publish fails, on a node just brought
up. -/
theorem counter_advances_on_every_firing_witness :
    (well_formed fresh_node.msg.data ∧ 12 ≤ fresh_node.msg.data.capacity ∧
      fresh_node.counter = 0 ∧ [RCL_RET_OK, 1].length < 2147483647) ∧
    ∃ s1 s2, timer_firings [RCL_RET_OK, 1] fresh_node = Outcome.returned s1 ∧
      s1.counter = ([RCL_RET_OK, 1] : List rcl_ret_t).length ∧
      timed_publish_trigger 1 (some ()) 0 s1 = Outcome.returned s2 ∧
      s2.counter = s1.counter + 1 ∧
      s2.uros_initialized = s1.uros_initialized ∧
      s2.uros_initialized = fresh_node.uros_initialized :=
  ⟨by decide,
    counter_advances_on_every_firing [RCL_RET_OK, 1] 1 () 0 fresh_node (by decide) (by decide)
      (by decide) (by decide)⟩

/-- C2 as stated fails: after 2147483647 firings from `counter = 0` the counter
holds the largest `int`, and the next firing does not increase it by 1. -/
theorem counter_wraps_at_int_max :
    ∃ s1 s2, timer_firings (List.replicate 2147483647 RCL_RET_OK) fresh_node
        = Outcome.returned s1 ∧
      s1.counter = 2147483647 ∧
      timed_publish_trigger RCL_RET_OK (some ()) 0 s1 = Outcome.returned s2 ∧
      s2.counter = -2147483648 ∧
      s2.counter ≠ s1.counter + 1 := by
  obtain ⟨hwf, hcap, h0, -, -⟩ := fresh_node_facts
  obtain ⟨s1, hs1, hcnt1, -, hcap1, hwf1, -⟩ :=
    timer_firings_spec (List.replicate 2147483647 RCL_RET_OK) fresh_node hwf
      (by rw [hcap]; decide) (by rw [h0]; decide)
  rw [List.length_replicate, h0] at hcnt1
  have hcnt : s1.counter = 2147483647 := by
    rw [hcnt1]
    decide
  have hlen : (fmt_d s1.counter).length < s1.msg.data.capacity := by
    rw [hcap1, hcap, hcnt]
    decide
  obtain ⟨s2, hs2, hcnt2, -⟩ := timed_publish_trigger_spec RCL_RET_OK () 0 s1 hwf1 hlen
  have h2 : s2.counter = -2147483648 := by
    rw [hcnt2, hcnt]
    decide
  refine ⟨s1, s2, hs1, hcnt, hs2, h2, ?_⟩
  rw [h2, hcnt]
  decide

/-- C3 (as amended): from `counter = 0`, for every number `n` of timer firings
up to 2147483648, the payloads published are, in order, the decimal texts of
0, 1, ..., n - 1, each with its size field equal to the length of the text:
firing number `k` publishes `k - 1`.  The publish store is assumed to be
allocated with at least 12 bytes. -/
theorem firings_publish_decimal_counter (rcs : List rcl_ret_t) (s : NodeState)
    (hwf : well_formed s.msg.data) (hcap : 12 ≤ s.msg.data.capacity) (h0 : s.counter = 0)
    (hn : rcs.length ≤ 2147483648) :
    ∃ s1, timer_firings rcs s = Outcome.returned s1 ∧
      published s1.calls = published s.calls ++ (List.range rcs.length).map
        (fun (i : Nat) => ((Nat.repr i).toList, (Nat.repr i).toList.length)) := by
  have hc0 : isInt32 s.counter := by rw [h0]; decide
  obtain ⟨s1, hs1, -, -, -, -, hpub⟩ := timer_firings_spec rcs s hwf hcap hc0
  refine ⟨s1, hs1, ?_⟩
  rw [hpub]
  congr 1
  apply List.map_congr_left
  intro i hi
  have hi2 : i < rcs.length := List.mem_range.1 hi
  have hr : isInt32 (i : Int) := by
    unfold isInt32
    omega
  rw [h0, zero_add, wrapInt_of_isInt32 _ hr, fmt_d_nonneg _ (by omega)]
  simp

/-- The scenario of C3: three firings on a node just brought up publish "0",
"1", "2" in that order, each of size 1. -/
theorem firings_publish_decimal_counter_witness :
    (well_formed fresh_node.msg.data ∧ 12 ≤ fresh_node.msg.data.capacity ∧
      fresh_node.counter = 0 ∧ [RCL_RET_OK, RCL_RET_OK, RCL_RET_OK].length ≤ 2147483648) ∧
    ∃ s1, timer_firings [RCL_RET_OK, RCL_RET_OK, RCL_RET_OK] fresh_node = Outcome.returned s1 ∧
      published s1.calls = [("0".toList, 1), ("1".toList, 1), ("2".toList, 1)] := by
  refine ⟨by decide, ?_⟩
  obtain ⟨s1, hs1, hpub⟩ :=
    firings_publish_decimal_counter [RCL_RET_OK, RCL_RET_OK, RCL_RET_OK] fresh_node
      (by decide) (by decide) (by decide) (by decide)
  refine ⟨s1, hs1, ?_⟩
  rw [hpub]
  decide

/-- C3 as stated fails at k = 2147483649: that firing publishes the text
"-2147483648", which is not the decimal representation of 2147483648. -/
theorem firing_after_int_max_publishes_negative :
    ∃ s1, timer_firings (List.replicate 2147483649 RCL_RET_OK) fresh_node
        = Outcome.returned s1 ∧
      (published s1.calls).getLast? = some ("-2147483648".toList, 11) ∧
      "-2147483648".toList ≠ (Nat.repr (2147483649 - 1)).toList := by
  obtain ⟨hwf, hcap, h0, -, -⟩ := fresh_node_facts
  obtain ⟨s1, hs1, -, -, -, -, hpub⟩ :=
    timer_firings_spec (List.replicate 2147483649 RCL_RET_OK) fresh_node hwf
      (by rw [hcap]; decide) (by rw [h0]; decide)
  rw [List.length_replicate, h0] at hpub
  have key : ∀ (l : List (List Char × Nat)) (g : Nat → List Char × Nat) (n : Nat),
      (l ++ (List.range (n + 1)).map g).getLast? = some (g n) := by
    intro l g n
    simp [List.range_succ]
  refine ⟨s1, hs1, ?_, by decide⟩
  rw [hpub]
  refine (key _ _ 2147483648).trans ?_
  decide

/-- C10: for every 32-bit value of `counter` the text written by
`timed_publish_trigger` has at most 11 characters, and on a publish store
allocated with a capacity of at least 12 the write stays inside the store
(the outcome is a normal return, the store keeps its length and capacity)
and the size left in the message is strictly below the capacity. -/
theorem publish_buffer_stays_within_capacity (rc : rcl_ret_t) (t : Unit) (lct : Int)
    (s : NodeState) (hwf : well_formed s.msg.data) (hcap : 12 ≤ s.msg.data.capacity)
    (hc : isInt32 s.counter) :
    (fmt_d s.counter).length ≤ 11 ∧
    ∃ s1, timed_publish_trigger rc (some t) lct s = Outcome.returned s1 ∧
      s1.msg.data.capacity = s.msg.data.capacity ∧
      s1.msg.data.data.length = s1.msg.data.capacity ∧
      s1.msg.data.size = (fmt_d s.counter).length ∧
      s1.msg.data.size < s1.msg.data.capacity := by
  have h11 := fmt_d_length_le _ hc
  obtain ⟨s1, hs1, -, -, hcap1, hwf1, hsize1, -⟩ :=
    timed_publish_trigger_spec rc t lct s hwf (by omega)
  exact ⟨h11, s1, hs1, hcap1, hwf1, hsize1, by omega⟩

/-- The longest text, that of the least `int`, written to a store of exactly 12
bytes. -/
theorem publish_buffer_stays_within_capacity_witness :
    (well_formed (allocated_string 12) ∧ 12 ≤ (allocated_string 12).capacity ∧
      isInt32 (-2147483648)) ∧
    (fmt_d (-2147483648)).length ≤ 11 ∧
    ∃ s1, timed_publish_trigger RCL_RET_OK (some ()) 0
        { process_start with msg := ⟨allocated_string 12⟩, counter := -2147483648 }
        = Outcome.returned s1 ∧
      s1.msg.data.capacity = 12 ∧
      s1.msg.data.data.length = s1.msg.data.capacity ∧
      s1.msg.data.size = (fmt_d (-2147483648)).length ∧
      s1.msg.data.size < s1.msg.data.capacity :=
  ⟨by decide,
    publish_buffer_stays_within_capacity RCL_RET_OK () 0
      { process_start with msg := ⟨allocated_string 12⟩, counter := -2147483648 }
      (by decide) (by decide) (by decide)⟩

/-! ## Teardown -/

theorem teardown_ros_of_not_initialized (mw : Middleware) (s : NodeState)
    (h : s.uros_initialized = false) : teardown_ros mw s = s := by
  simp [teardown_ros, h]

theorem teardown_ros_clears_flag (mw : Middleware) (s : NodeState) :
    (teardown_ros mw s).uros_initialized = false := by
  unfold teardown_ros
  cases h : s.uros_initialized
  · simp [h]
  · simp only [if_true]

/-- C6: called with `uros_initialized = true`, `teardown_ros` makes, for every
combination of return codes, exactly the release calls publisher, service,
node, timer, executor, support, then the stores of `msg`, `request` and
`response`, in this order, and ends with `uros_initialized = false`. -/
theorem teardown_ros_releases_all_in_order (mw : Middleware) (s : NodeState)
    (h : s.uros_initialized = true) :
    (teardown_ros mw s).calls = s.calls ++
      [Call.rcl_publisher_fini mw.rcl_publisher_fini,
       Call.rcl_service_fini mw.rcl_service_fini,
       Call.rcl_node_fini mw.rcl_node_fini,
       Call.rcl_timer_fini mw.rcl_timer_fini,
       Call.rclc_executor_fini mw.rclc_executor_fini,
       Call.rclc_support_fini mw.rclc_support_fini,
       Call.micro_ros_utilities_destroy_message_memory Message.msg,
       Call.micro_ros_utilities_destroy_message_memory Message.request,
       Call.micro_ros_utilities_destroy_message_memory Message.response] ∧
    (teardown_ros mw s).uros_initialized = false := by
  refine ⟨?_, teardown_ros_clears_flag mw s⟩
  unfold teardown_ros
  simp only [h, if_true]
  split_ifs <;> simp [NodeState.call, Serial_print, NodeState.print]

/-- Teardown of a node just brought up, with every release call failing. -/
theorem teardown_ros_releases_all_in_order_witness :
    fresh_node.uros_initialized = true ∧
    (teardown_ros { all_ok with
        rcl_publisher_fini := 1, rcl_service_fini := 1, rcl_node_fini := 1,
        rcl_timer_fini := 1, rclc_executor_fini := 1, rclc_support_fini := 1 } fresh_node).calls
      = fresh_node.calls ++
      [Call.rcl_publisher_fini 1, Call.rcl_service_fini 1, Call.rcl_node_fini 1,
       Call.rcl_timer_fini 1, Call.rclc_executor_fini 1, Call.rclc_support_fini 1,
       Call.micro_ros_utilities_destroy_message_memory Message.msg,
       Call.micro_ros_utilities_destroy_message_memory Message.request,
       Call.micro_ros_utilities_destroy_message_memory Message.response] ∧
    (teardown_ros { all_ok with
        rcl_publisher_fini := 1, rcl_service_fini := 1, rcl_node_fini := 1,
        rcl_timer_fini := 1, rclc_executor_fini := 1, rclc_support_fini := 1 }
      fresh_node).uros_initialized = false :=
  ⟨by decide, teardown_ros_releases_all_in_order _ fresh_node (by decide)⟩

/-- C7: called with `uros_initialized = false`, `teardown_ros` leaves the whole
state as it is, so it makes no release call and writes nothing to `Serial`;
and a second `teardown_ros` right after a first one changes nothing. -/
theorem teardown_ros_noop_when_not_initialized (mw mw2 : Middleware) (s t : NodeState)
    (h : s.uros_initialized = false) :
    teardown_ros mw s = s ∧
    (teardown_ros mw s).calls = s.calls ∧
    (teardown_ros mw s).serial = s.serial ∧
    teardown_ros mw2 (teardown_ros mw t) = teardown_ros mw t := by
  have h1 := teardown_ros_of_not_initialized mw s h
  exact ⟨h1, by rw [h1], by rw [h1],
    teardown_ros_of_not_initialized mw2 _ (teardown_ros_clears_flag mw t)⟩

/-- Teardown at process start, and teardown twice of a node just brought
up. -/
theorem teardown_ros_noop_when_not_initialized_witness :
    process_start.uros_initialized = false ∧
    teardown_ros all_ok process_start = process_start ∧
    (teardown_ros all_ok process_start).calls = process_start.calls ∧
    (teardown_ros all_ok process_start).serial = process_start.serial ∧
    teardown_ros all_ok (teardown_ros all_ok fresh_node) = teardown_ros all_ok fresh_node :=
  ⟨rfl, teardown_ros_noop_when_not_initialized all_ok all_ok process_start fresh_node rfl⟩

/-! ## The retry loop -/

theorem attempts_succ (fn : rcl_ret_t → Call) (rcs : Nat → rcl_ret_t) (i n : Nat) :
    attempts fn rcs i (n + 1) = fn (rcs i) :: attempts fn rcs (i + 1) n := by
  simp [attempts, List.range'_succ]

theorem RCCRETRY_eq (fn : rcl_ret_t → Call) (rcs : Nat → rcl_ret_t) : ∀ (fuel i : Nat)
    (s : NodeState), RCCRETRY fn rcs fuel i s =
      match first_ok rcs fuel i with
      | some k => Outcome.returned { s with calls := s.calls ++ attempts fn rcs i (k + 1 - i) }
      | none => Outcome.retrying { s with calls := s.calls ++ attempts fn rcs i fuel } := by
  intro fuel
  induction fuel with
  | zero => intro i s; simp [RCCRETRY, first_ok, attempts]
  | succ f ih =>
    intro i s
    by_cases h : rcs i = RCL_RET_OK
    · simp [RCCRETRY, first_ok, h, attempts, NodeState.call]
    · have hk : ∀ k, first_ok rcs f (i + 1) = some k → i + 1 ≤ k := by
        clear ih
        induction f generalizing i with
        | zero => intro k hk; simp [first_ok] at hk
        | succ f ihf =>
          intro k hk
          by_cases h2 : rcs (i + 1) = RCL_RET_OK
          · simp [first_ok, h2] at hk
            omega
          · simp only [first_ok, h2, ne_eq, not_false_eq_true, if_true] at hk
            have := ihf (i + 1) h2 k hk
            omega
      simp only [RCCRETRY, first_ok, h, ne_eq, not_false_eq_true, if_true, ih]
      cases hf : first_ok rcs f (i + 1) with
      | none => simp [NodeState.call, attempts_succ]
      | some k =>
        have := hk k hf
        have e : k + 1 - i = (k + 1 - (i + 1)) + 1 := by omega
        simp [NodeState.call, e, attempts_succ]

theorem first_ok_some (rcs : Nat → rcl_ret_t) : ∀ (fuel i k : Nat),
    first_ok rcs fuel i = some k →
      i ≤ k ∧ k < i + fuel ∧ rcs k = RCL_RET_OK ∧ ∀ j, i ≤ j → j < k → rcs j ≠ RCL_RET_OK := by
  intro fuel
  induction fuel with
  | zero => intro i k h; simp [first_ok] at h
  | succ f ih =>
    intro i k h
    by_cases h2 : rcs i = RCL_RET_OK
    · simp [first_ok, h2] at h
      subst h
      exact ⟨le_refl _, by omega, h2, fun j h1 h3 => by omega⟩
    · simp only [first_ok, h2, ne_eq, not_false_eq_true, if_true] at h
      obtain ⟨a, b, c, d⟩ := ih (i + 1) k h
      refine ⟨by omega, by omega, c, fun j h1 h3 => ?_⟩
      rcases Nat.eq_or_lt_of_le h1 with rfl | h4
      · exact h2
      · exact d j h4 h3

theorem first_ok_of_ok (rcs : Nat → rcl_ret_t) : ∀ (fuel i k : Nat),
    i ≤ k → k < i + fuel → rcs k = RCL_RET_OK → (∀ j, i ≤ j → j < k → rcs j ≠ RCL_RET_OK) →
      first_ok rcs fuel i = some k := by
  intro fuel
  induction fuel with
  | zero => intro i k h1 h2; omega
  | succ f ih =>
    intro i k h1 h2 h3 h4
    rcases Nat.eq_or_lt_of_le h1 with rfl | h5
    · simp [first_ok, h3]
    · have := h4 i (le_refl _) h5
      simp only [first_ok, this, ne_eq, not_false_eq_true, if_true]
      exact ih (i + 1) k h5 (by omega) h3 (fun j a b => h4 j (by omega) b)

/-! ## Initialization -/

theorem initialize_ros_early (mw : Middleware) (fuel : Nat) (s0 : NodeState)
    (hs0 : s0.uros_initialized = false) (n : Nat) (h : early_failure mw = some n) :
    ∃ s, initialize_ros mw fuel s0 = Outcome.error_loop s ∧ s.uros_initialized = false ∧
      s.calls = s0.calls ++ (calls_before_publisher mw).take n := by
  unfold early_failure at h
  unfold initialize_ros
  split_ifs at h with h1 h2 h3 h4 h5 h6 <;> injection h with h <;> subst h <;>
    simp_all [RCCHECK, Outcome.bind, error_loop, teardown_ros, NodeState.call, Serial_print,
      NodeState.print, create_message_memory, calls_before_publisher]

theorem initialize_ros_late (mw : Middleware) (fuel : Nat) (s0 : NodeState)
    (hs0 : s0.uros_initialized = false) (h : early_failure mw = none) :
    (first_ok mw.rclc_publisher_init_default fuel 0 = none →
      ∃ s, initialize_ros mw fuel s0 = Outcome.retrying s ∧
        s.uros_initialized = false ∧
        s.calls = s0.calls ++ (calls_before_publisher mw ++
          attempts (Call.rclc_publisher_init_default "chatter")
            mw.rclc_publisher_init_default 0 fuel)) ∧
    (∀ k, first_ok mw.rclc_publisher_init_default fuel 0 = some k →
      (mw.rclc_timer_init_default ≠ RCL_RET_OK →
        ∃ s, initialize_ros mw fuel s0 = Outcome.error_loop s ∧
          s.uros_initialized = false ∧
          s.calls = s0.calls ++ (calls_before_publisher mw ++
            attempts (Call.rclc_publisher_init_default "chatter")
              mw.rclc_publisher_init_default 0 (k + 1) ++
            [Call.rclc_timer_init_default (RCL_MS_TO_NS 5000)
              mw.rclc_timer_init_default])) ∧
      (mw.rclc_timer_init_default = RCL_RET_OK → mw.rclc_executor_add_timer ≠ RCL_RET_OK →
        ∃ s, initialize_ros mw fuel s0 = Outcome.error_loop s ∧
          s.uros_initialized = false ∧
          s.calls = s0.calls ++ (calls_before_publisher mw ++
            attempts (Call.rclc_publisher_init_default "chatter")
              mw.rclc_publisher_init_default 0 (k + 1) ++
            [Call.rclc_timer_init_default (RCL_MS_TO_NS 5000) mw.rclc_timer_init_default,
             Call.rclc_executor_add_timer mw.rclc_executor_add_timer])) ∧
      (mw.rclc_timer_init_default = RCL_RET_OK → mw.rclc_executor_add_timer = RCL_RET_OK →
        ∃ s, initialize_ros mw fuel s0 = Outcome.returned s ∧
          s.uros_initialized = true ∧
          s.calls = s0.calls ++ (calls_before_publisher mw ++
            attempts (Call.rclc_publisher_init_default "chatter")
              mw.rclc_publisher_init_default 0 (k + 1) ++
            [Call.rclc_timer_init_default (RCL_MS_TO_NS 5000) mw.rclc_timer_init_default,
             Call.rclc_executor_add_timer mw.rclc_executor_add_timer]))) := by
  unfold early_failure at h
  split_ifs at h with h1 h2 h3 h4 h5 h6
  simp only [ne_eq, not_not] at h1 h2 h3 h4 h5 h6
  refine ⟨fun hf => ?_, fun k hf => ⟨fun ht => ?_, fun ht ha => ?_, fun ht ha => ?_⟩⟩
  · simp [initialize_ros, RCCHECK, Outcome.bind, error_loop, NodeState.call,
      Serial_print, NodeState.print, create_message_memory, calls_before_publisher, RCCRETRY_eq,
      h1, h2, h3, h4, h5, h6, hf, hs0]
  · simp [initialize_ros, RCCHECK, Outcome.bind, error_loop, NodeState.call, teardown_ros,
      Serial_print, NodeState.print, create_message_memory, calls_before_publisher, RCCRETRY_eq,
      h1, h2, h3, h4, h5, h6, hf, ht, hs0]
  · simp [initialize_ros, RCCHECK, Outcome.bind, error_loop, NodeState.call, teardown_ros,
      Serial_print, NodeState.print, create_message_memory, calls_before_publisher, RCCRETRY_eq,
      h1, h2, h3, h4, h5, h6, hf, ht, ha, hs0]
  · simp [initialize_ros, RCCHECK, Outcome.bind, error_loop, NodeState.call, teardown_ros,
      Serial_print, NodeState.print, create_message_memory, calls_before_publisher, RCCRETRY_eq,
      h1, h2, h3, h4, h5, h6, hf, ht, ha, hs0]

theorem early_failure_none (mw : Middleware) (h : early_failure mw = none) :
    mw.rclc_support_init = RCL_RET_OK ∧ mw.rclc_node_init_default = RCL_RET_OK ∧
    mw.rclc_executor_init = RCL_RET_OK ∧ mw.rclc_executor_set_timeout = RCL_RET_OK ∧
    mw.rclc_service_init_default = RCL_RET_OK ∧ mw.rclc_executor_add_service = RCL_RET_OK := by
  unfold early_failure at h
  split_ifs at h with h1 h2 h3 h4 h5 h6
  simp only [ne_eq, not_not] at h1 h2 h3 h4 h5 h6
  exact ⟨h1, h2, h3, h4, h5, h6⟩

theorem early_failure_of_ok (mw : Middleware)
    (h1 : mw.rclc_support_init = RCL_RET_OK) (h2 : mw.rclc_node_init_default = RCL_RET_OK)
    (h3 : mw.rclc_executor_init = RCL_RET_OK) (h4 : mw.rclc_executor_set_timeout = RCL_RET_OK)
    (h5 : mw.rclc_service_init_default = RCL_RET_OK)
    (h6 : mw.rclc_executor_add_service = RCL_RET_OK) : early_failure mw = none := by
  simp [early_failure, h1, h2, h3, h4, h5, h6]

theorem early_failure_shape (mw : Middleware) (n : Nat) (h : early_failure mw = some n) :
    ∃ pre c, (calls_before_publisher mw).take n = pre ++ [c] ∧ c.failed = true ∧
      (∀ x ∈ pre, x.failed = false) ∧
      (mw.rclc_support_init = RCL_RET_OK → mw.rclc_node_init_default ≠ RCL_RET_OK →
        n = 5) ∧
      (add_calls ((calls_before_publisher mw).take n)).length ≤ 1 ∧
      ((calls_before_publisher mw).take n).filter Call.releases = [] := by
  unfold early_failure at h
  split_ifs at h with h1 h2 h3 h4 h5 h6 <;> injection h with h <;> subst h
  · exact ⟨(calls_before_publisher mw).take 2, Call.rclc_support_init mw.rclc_support_init,
      by simp [calls_before_publisher], by simpa [Call.failed] using h1,
      by simp [calls_before_publisher, Call.failed], fun h => absurd h h1,
      by simp [calls_before_publisher, add_calls],
      by simp [calls_before_publisher, Call.releases]⟩
  · simp only [ne_eq, not_not] at h1
    exact ⟨(calls_before_publisher mw).take 4,
      Call.rclc_node_init_default "control_node" "robot" mw.rclc_node_init_default,
      by simp [calls_before_publisher], by simpa [Call.failed] using h2,
      by simp [calls_before_publisher, Call.failed, h1], fun _ _ => rfl,
      by simp [calls_before_publisher, add_calls],
      by simp [calls_before_publisher, Call.releases]⟩
  · simp only [ne_eq, not_not] at h1 h2
    exact ⟨(calls_before_publisher mw).take 6,
      Call.rclc_executor_init num_execution_handles mw.rclc_executor_init,
      by simp [calls_before_publisher], by simpa [Call.failed] using h3,
      by simp [calls_before_publisher, Call.failed, h1, h2], fun _ h => absurd h2 h,
      by simp [calls_before_publisher, add_calls],
      by simp [calls_before_publisher, Call.releases]⟩
  · simp only [ne_eq, not_not] at h1 h2 h3
    exact ⟨(calls_before_publisher mw).take 7,
      Call.rclc_executor_set_timeout (RCL_MS_TO_NS 2000) mw.rclc_executor_set_timeout,
      by simp [calls_before_publisher], by simpa [Call.failed] using h4,
      by simp [calls_before_publisher, Call.failed, h1, h2, h3], fun _ h => absurd h2 h,
      by simp [calls_before_publisher, add_calls],
      by simp [calls_before_publisher, Call.releases]⟩
  · simp only [ne_eq, not_not] at h1 h2 h3 h4
    exact ⟨(calls_before_publisher mw).take 10,
      Call.rclc_service_init_default "/control" mw.rclc_service_init_default,
      by simp [calls_before_publisher], by simpa [Call.failed] using h5,
      by simp [calls_before_publisher, Call.failed, h1, h2, h3, h4], fun _ h => absurd h2 h,
      by simp [calls_before_publisher, add_calls],
      by simp [calls_before_publisher, Call.releases]⟩
  · simp only [ne_eq, not_not] at h1 h2 h3 h4 h5
    exact ⟨(calls_before_publisher mw).take 11,
      Call.rclc_executor_add_service mw.rclc_executor_add_service,
      by simp [calls_before_publisher], by simpa [Call.failed] using h6,
      by simp [calls_before_publisher, Call.failed, h1, h2, h3, h4, h5],
      fun _ h => absurd h2 h,
      by simp [calls_before_publisher, add_calls],
      by simp [calls_before_publisher, Call.releases]⟩

theorem attempts_publisher_facts (rcs : Nat → rcl_ret_t) (i n : Nat) :
    (∀ x ∈ attempts (Call.rclc_publisher_init_default "chatter") rcs i n, x.failed = false) ∧
    add_calls (attempts (Call.rclc_publisher_init_default "chatter") rcs i n) = [] ∧
    registered (attempts (Call.rclc_publisher_init_default "chatter") rcs i n) = [] ∧
    declared_capacity (attempts (Call.rclc_publisher_init_default "chatter") rcs i n) = [] ∧
    (attempts (Call.rclc_publisher_init_default "chatter") rcs i n).filter Call.releases = [] := by
  refine ⟨?_, ?_, ?_, ?_, ?_⟩
  · intro x hx
    simp only [attempts, List.mem_map] at hx
    obtain ⟨j, -, rfl⟩ := hx
    rfl
  · simp only [add_calls, attempts, List.filter_eq_nil_iff, List.mem_map]
    rintro a ⟨x, -, rfl⟩
    simp
  · simp only [registered, attempts, List.filter_eq_nil_iff, List.mem_map]
    rintro a ⟨x, -, rfl⟩
    simp
  · simp [declared_capacity, attempts, List.filterMap_eq_nil_iff]
  · simp only [attempts, List.filter_eq_nil_iff, List.mem_map]
    rintro a ⟨x, -, rfl⟩
    simp [Call.releases]

theorem calls_before_publisher_facts (mw : Middleware) (h : early_failure mw = none) :
    (∀ x ∈ calls_before_publisher mw, x.failed = false) ∧
    add_calls (calls_before_publisher mw)
      = [Call.rclc_executor_add_service RCL_RET_OK] ∧
    registered (calls_before_publisher mw)
      = [Call.rclc_executor_add_service RCL_RET_OK] ∧
    declared_capacity (calls_before_publisher mw) = [num_execution_handles] ∧
    (calls_before_publisher mw).filter Call.releases = [] := by
  obtain ⟨h1, h2, h3, h4, h5, h6⟩ := early_failure_none mw h
  refine ⟨?_, ?_, ?_, ?_, ?_⟩
  · simp [calls_before_publisher, Call.failed, h1, h2, h3, h4, h5, h6]
  · simp [calls_before_publisher, add_calls, h6]
  · simp [calls_before_publisher, registered, h6]
  · simp [calls_before_publisher, declared_capacity, h3]
  · simp [calls_before_publisher, Call.releases]

theorem calls_since_append (s0 s : NodeState) (l : List Call) (h : s.calls = s0.calls ++ l) :
    calls_since s0 s = l := by
  simp [calls_since, h]

theorem first_ok_none (rcs : Nat → rcl_ret_t) : ∀ (fuel i : Nat),
    first_ok rcs fuel i = none → ∀ j, i ≤ j → j < i + fuel → rcs j ≠ RCL_RET_OK := by
  intro fuel
  induction fuel with
  | zero => intro i _ j h1 h2; omega
  | succ f ih =>
    intro i h j h1 h2
    by_cases h3 : rcs i = RCL_RET_OK
    · simp [first_ok, h3] at h
    · simp only [first_ok, h3, ne_eq, not_false_eq_true, if_true] at h
      rcases Nat.eq_or_lt_of_le h1 with rfl | h4
      · exact h3
      · exact ih (i + 1) h j h4 (by omega)

theorem error_loop_turns_spec (n : Nat) (s : NodeState) :
    (error_loop_turns n s).uros_initialized = s.uros_initialized ∧
    ∃ l, (error_loop_turns n s).calls = s.calls ++ l ∧
      ∀ x ∈ l, x = Call.delay 200 ∨ ∃ b, x = Call.digitalWrite LED_PIN b := by
  induction n with
  | zero => exact ⟨rfl, [], by simp [error_loop_turns], by simp⟩
  | succ n ih =>
    obtain ⟨h1, l, h2, h3⟩ := ih
    have e : error_loop_turns (n + 1) s = error_loop_body (error_loop_turns n s) := by
      simp [error_loop_turns, Function.iterate_succ_apply']
    rw [e]
    refine ⟨by simpa [error_loop_body, NodeState.call, Serial_print, NodeState.print] using h1,
      l ++ [Call.delay 200, Call.digitalWrite LED_PIN (!(error_loop_turns n s).led)], ?_, ?_⟩
    · simp [error_loop_body, NodeState.call, Serial_print, NodeState.print, h2]
    · intro x hx
      rcases List.mem_append.1 hx with hx | hx
      · exact h3 x hx
      · simp only [List.mem_cons, List.mem_singleton, List.not_mem_nil, or_false] at hx
        rcases hx with rfl | rfl
        · exact Or.inl rfl
        · exact Or.inr ⟨_, rfl⟩

/-- Bring-up does complete: when the eight fail-fast steps succeed and the
creation of the publisher first succeeds at attempt `k`, any fuel above `k`
lets `initialize_ros` return, with `uros_initialized = true`. -/
theorem initialize_ros_succeeds (mw : Middleware) (fuel k : Nat) (s0 : NodeState)
    (hs0 : s0.uros_initialized = false)
    (h1 : mw.rclc_support_init = RCL_RET_OK) (h2 : mw.rclc_node_init_default = RCL_RET_OK)
    (h3 : mw.rclc_executor_init = RCL_RET_OK) (h4 : mw.rclc_executor_set_timeout = RCL_RET_OK)
    (h5 : mw.rclc_service_init_default = RCL_RET_OK)
    (h6 : mw.rclc_executor_add_service = RCL_RET_OK)
    (h7 : mw.rclc_timer_init_default = RCL_RET_OK)
    (h8 : mw.rclc_executor_add_timer = RCL_RET_OK)
    (hk : k < fuel) (hok : mw.rclc_publisher_init_default k = RCL_RET_OK)
    (hbefore : ∀ j, j < k → mw.rclc_publisher_init_default j ≠ RCL_RET_OK) :
    ∃ s, initialize_ros mw fuel s0 = Outcome.returned s ∧ s.uros_initialized = true := by
  have hE := early_failure_of_ok mw h1 h2 h3 h4 h5 h6
  have hF := first_ok_of_ok mw.rclc_publisher_init_default fuel 0 k (Nat.zero_le _) (by omega)
    hok (fun j _ hj => hbefore j hj)
  obtain ⟨s, e, f, -⟩ := ((initialize_ros_late mw fuel s0 hs0 hE).2 k hF).2.2 h7 h8
  exact ⟨s, e, f⟩

/-- C4: from `uros_initialized = false`, for every choice of return codes, if
`initialize_ros` ends in a state with `uros_initialized = true` then it
returned normally, each of the eight fail-fast steps returned `RCL_RET_OK`,
and the retry loop of the publisher ended on an attempt `k` that returned
`RCL_RET_OK` after `k` failed ones. -/
theorem initialize_ros_live_only_after_all_steps (mw : Middleware) (fuel : Nat)
    (s0 s : NodeState) (hs0 : s0.uros_initialized = false)
    (h : (initialize_ros mw fuel s0).state? = some s) (hlive : s.uros_initialized = true) :
    initialize_ros mw fuel s0 = Outcome.returned s ∧
    (mw.rclc_support_init = RCL_RET_OK ∧ mw.rclc_node_init_default = RCL_RET_OK ∧
      mw.rclc_executor_init = RCL_RET_OK ∧ mw.rclc_executor_set_timeout = RCL_RET_OK ∧
      mw.rclc_service_init_default = RCL_RET_OK ∧ mw.rclc_executor_add_service = RCL_RET_OK ∧
      mw.rclc_timer_init_default = RCL_RET_OK ∧ mw.rclc_executor_add_timer = RCL_RET_OK) ∧
    ∃ k, k < fuel ∧ mw.rclc_publisher_init_default k = RCL_RET_OK ∧
      (∀ j, j < k → mw.rclc_publisher_init_default j ≠ RCL_RET_OK) ∧
      calls_since s0 s = calls_before_publisher mw ++
        attempts (Call.rclc_publisher_init_default "chatter")
          mw.rclc_publisher_init_default 0 (k + 1) ++
        [Call.rclc_timer_init_default (RCL_MS_TO_NS 5000) mw.rclc_timer_init_default,
         Call.rclc_executor_add_timer mw.rclc_executor_add_timer] := by
  cases hE : early_failure mw with
  | some n =>
    obtain ⟨s1, e1, f1, -⟩ := initialize_ros_early mw fuel s0 hs0 n hE
    rw [e1] at h
    simp only [Outcome.state?, Option.some.injEq] at h
    subst h
    rw [f1] at hlive
    cases hlive
  | none =>
    obtain ⟨h1, h2, h3, h4, h5, h6⟩ := early_failure_none mw hE
    obtain ⟨hR, hK⟩ := initialize_ros_late mw fuel s0 hs0 hE
    cases hF : first_ok mw.rclc_publisher_init_default fuel 0 with
    | none =>
      obtain ⟨s1, e1, f1, -⟩ := hR hF
      rw [e1] at h
      simp only [Outcome.state?, Option.some.injEq] at h
      subst h
      rw [f1] at hlive
      cases hlive
    | some k =>
      obtain ⟨hT, hA, hS⟩ := hK k hF
      obtain ⟨-, k1, k2, k3⟩ := first_ok_some _ _ _ _ hF
      by_cases h7 : mw.rclc_timer_init_default = RCL_RET_OK
      · by_cases h8 : mw.rclc_executor_add_timer = RCL_RET_OK
        · obtain ⟨s1, e1, -, c1⟩ := hS h7 h8
          rw [e1] at h
          simp only [Outcome.state?, Option.some.injEq] at h
          subst h
          refine ⟨e1, ⟨h1, h2, h3, h4, h5, h6, h7, h8⟩, k, by omega, k2,
            fun j hj => k3 j (Nat.zero_le _) hj, ?_⟩
          rw [calls_since_append s0 s1 _ c1]
        · obtain ⟨s1, e1, f1, -⟩ := hA h7 h8
          rw [e1] at h
          simp only [Outcome.state?, Option.some.injEq] at h
          subst h
          rw [f1] at hlive
          cases hlive
      · obtain ⟨s1, e1, f1, -⟩ := hT h7
        rw [e1] at h
        simp only [Outcome.state?, Option.some.injEq] at h
        subst h
        rw [f1] at hlive
        cases hlive

/-- Bring-up at process start on a middleware whose publisher creation fails
twice and then succeeds. -/
theorem initialize_ros_live_only_after_all_steps_witness :
    (process_start.uros_initialized = false ∧
      (initialize_ros publisher_retries 5 process_start).state? = some retried_node ∧
      retried_node.uros_initialized = true) ∧
    initialize_ros publisher_retries 5 process_start = Outcome.returned retried_node ∧
    (publisher_retries.rclc_support_init = RCL_RET_OK ∧
      publisher_retries.rclc_node_init_default = RCL_RET_OK ∧
      publisher_retries.rclc_executor_init = RCL_RET_OK ∧
      publisher_retries.rclc_executor_set_timeout = RCL_RET_OK ∧
      publisher_retries.rclc_service_init_default = RCL_RET_OK ∧
      publisher_retries.rclc_executor_add_service = RCL_RET_OK ∧
      publisher_retries.rclc_timer_init_default = RCL_RET_OK ∧
      publisher_retries.rclc_executor_add_timer = RCL_RET_OK) ∧
    ∃ k, k < 5 ∧ publisher_retries.rclc_publisher_init_default k = RCL_RET_OK ∧
      (∀ j, j < k → publisher_retries.rclc_publisher_init_default j ≠ RCL_RET_OK) ∧
      calls_since process_start retried_node = calls_before_publisher publisher_retries ++
        attempts (Call.rclc_publisher_init_default "chatter")
          publisher_retries.rclc_publisher_init_default 0 (k + 1) ++
        [Call.rclc_timer_init_default (RCL_MS_TO_NS 5000)
           publisher_retries.rclc_timer_init_default,
         Call.rclc_executor_add_timer publisher_retries.rclc_executor_add_timer] :=
  ⟨by decide,
    initialize_ros_live_only_after_all_steps publisher_retries 5 process_start retried_node
      (by decide) (by decide) (by decide)⟩

/-- C5: from `uros_initialized = false`, if one of the eight fail-fast steps
returns a code other than `RCL_RET_OK` (and the retry loop of the publisher,
when it is reached, ends within the fuel), `initialize_ros` enters
`error_loop` and never returns; `uros_initialized` is false there; the calls
it has made end with the first failed step, so no later step is executed; in
the error loop the flag stays false and only `delay` and `digitalWrite` are
called.  When it is the creation of the node that fails, the calls are the
five up to `rclc_node_init_default`: no service, publisher or message store
is created or registered. -/
theorem fail_fast_step_enters_error_loop (mw : Middleware) (fuel : Nat) (s0 : NodeState)
    (hs0 : s0.uros_initialized = false)
    (hfail : mw.rclc_support_init ≠ RCL_RET_OK ∨ mw.rclc_node_init_default ≠ RCL_RET_OK ∨
      mw.rclc_executor_init ≠ RCL_RET_OK ∨ mw.rclc_executor_set_timeout ≠ RCL_RET_OK ∨
      mw.rclc_service_init_default ≠ RCL_RET_OK ∨ mw.rclc_executor_add_service ≠ RCL_RET_OK ∨
      mw.rclc_timer_init_default ≠ RCL_RET_OK ∨ mw.rclc_executor_add_timer ≠ RCL_RET_OK)
    (hretry : mw.rclc_support_init = RCL_RET_OK → mw.rclc_node_init_default = RCL_RET_OK →
      mw.rclc_executor_init = RCL_RET_OK → mw.rclc_executor_set_timeout = RCL_RET_OK →
      mw.rclc_service_init_default = RCL_RET_OK → mw.rclc_executor_add_service = RCL_RET_OK →
      ∃ k, k < fuel ∧ mw.rclc_publisher_init_default k = RCL_RET_OK) :
    ∃ s pre c, initialize_ros mw fuel s0 = Outcome.error_loop s ∧
      s.uros_initialized = false ∧
      calls_since s0 s = pre ++ [c] ∧ c.failed = true ∧ (∀ x ∈ pre, x.failed = false) ∧
      (mw.rclc_support_init = RCL_RET_OK → mw.rclc_node_init_default ≠ RCL_RET_OK →
        calls_since s0 s =
          [Call.set_microros_wifi_transports,
           Call.rcl_get_default_allocator,
           Call.rclc_support_init RCL_RET_OK,
           Call.rcl_get_zero_initialized_node,
           Call.rclc_node_init_default "control_node" "robot" mw.rclc_node_init_default]) ∧
      ∀ n, (error_loop_turns n s).uros_initialized = false ∧
        ∀ x ∈ calls_since s (error_loop_turns n s),
          x = Call.delay 200 ∨ ∃ b, x = Call.digitalWrite LED_PIN b := by
  have hloop : ∀ (s : NodeState), s.uros_initialized = false →
      ∀ n, (error_loop_turns n s).uros_initialized = false ∧
        ∀ x ∈ calls_since s (error_loop_turns n s),
          x = Call.delay 200 ∨ ∃ b, x = Call.digitalWrite LED_PIN b := by
    intro s hs n
    obtain ⟨a, l, b, c⟩ := error_loop_turns_spec n s
    refine ⟨by rw [a, hs], ?_⟩
    rw [calls_since_append s _ l b]
    exact c
  cases hE : early_failure mw with
  | some n =>
    obtain ⟨s1, e1, f1, c1⟩ := initialize_ros_early mw fuel s0 hs0 n hE
    obtain ⟨pre, c, p1, p2, p3, p4, -, -⟩ := early_failure_shape mw n hE
    refine ⟨s1, pre, c, e1, f1, ?_, p2, p3, ?_, hloop s1 f1⟩
    · rw [calls_since_append s0 s1 _ c1, p1]
    · intro a b
      rw [calls_since_append s0 s1 _ c1, p4 a b]
      simp [calls_before_publisher, a]
  | none =>
    obtain ⟨h1, h2, h3, h4, h5, h6⟩ := early_failure_none mw hE
    obtain ⟨-, hK⟩ := initialize_ros_late mw fuel s0 hs0 hE
    obtain ⟨q1, -, -, -, -⟩ := calls_before_publisher_facts mw hE
    obtain ⟨k0, k0lt, k0ok⟩ := hretry h1 h2 h3 h4 h5 h6
    cases hF : first_ok mw.rclc_publisher_init_default fuel 0 with
    | none =>
      exact absurd k0ok (first_ok_none _ _ _ hF k0 (Nat.zero_le _) (by omega))
    | some k =>
      obtain ⟨hT, hA, -⟩ := hK k hF
      obtain ⟨a1, -, -, -, -⟩ := attempts_publisher_facts mw.rclc_publisher_init_default 0 (k + 1)
      by_cases h7 : mw.rclc_timer_init_default = RCL_RET_OK
      · have h8 : mw.rclc_executor_add_timer ≠ RCL_RET_OK := by
          rcases hfail with h | h | h | h | h | h | h | h
          · exact absurd h1 h
          · exact absurd h2 h
          · exact absurd h3 h
          · exact absurd h4 h
          · exact absurd h5 h
          · exact absurd h6 h
          · exact absurd h7 h
          · exact h
        obtain ⟨s1, e1, f1, c1⟩ := hA h7 h8
        refine ⟨s1, calls_before_publisher mw ++
            attempts (Call.rclc_publisher_init_default "chatter")
              mw.rclc_publisher_init_default 0 (k + 1) ++
            [Call.rclc_timer_init_default (RCL_MS_TO_NS 5000) mw.rclc_timer_init_default],
          Call.rclc_executor_add_timer mw.rclc_executor_add_timer, e1, f1, ?_, ?_, ?_,
          fun _ h => absurd h2 h, hloop s1 f1⟩
        · rw [calls_since_append s0 s1 _ c1]
          simp
        · simpa [Call.failed] using h8
        · intro x hx
          rcases List.mem_append.1 hx with hx | hx
          · rcases List.mem_append.1 hx with hx | hx
            · exact q1 x hx
            · exact a1 x hx
          · rw [List.mem_singleton.1 hx]
            simp [Call.failed, h7]
      · obtain ⟨s1, e1, f1, c1⟩ := hT h7
        refine ⟨s1, calls_before_publisher mw ++
            attempts (Call.rclc_publisher_init_default "chatter")
              mw.rclc_publisher_init_default 0 (k + 1),
          Call.rclc_timer_init_default (RCL_MS_TO_NS 5000) mw.rclc_timer_init_default,
          e1, f1, ?_, ?_, ?_, fun _ h => absurd h2 h, hloop s1 f1⟩
        · rw [calls_since_append s0 s1 _ c1]
        · simpa [Call.failed] using h7
        · intro x hx
          rcases List.mem_append.1 hx with hx | hx
          · exact q1 x hx
          · exact a1 x hx

/-- The scenario of C5: the creation of the node fails at process start. -/
theorem fail_fast_step_enters_error_loop_witness :
    (process_start.uros_initialized = false ∧
      node_creation_fails.rclc_node_init_default ≠ RCL_RET_OK) ∧
    ∃ s pre c, initialize_ros node_creation_fails 1 process_start = Outcome.error_loop s ∧
      s.uros_initialized = false ∧
      calls_since process_start s = pre ++ [c] ∧ c.failed = true ∧
      (∀ x ∈ pre, x.failed = false) ∧
      (node_creation_fails.rclc_support_init = RCL_RET_OK →
        node_creation_fails.rclc_node_init_default ≠ RCL_RET_OK →
        calls_since process_start s =
          [Call.set_microros_wifi_transports,
           Call.rcl_get_default_allocator,
           Call.rclc_support_init RCL_RET_OK,
           Call.rcl_get_zero_initialized_node,
           Call.rclc_node_init_default "control_node" "robot"
             node_creation_fails.rclc_node_init_default]) ∧
      ∀ n, (error_loop_turns n s).uros_initialized = false ∧
        ∀ x ∈ calls_since s (error_loop_turns n s),
          x = Call.delay 200 ∨ ∃ b, x = Call.digitalWrite LED_PIN b :=
  ⟨by decide,
    fail_fast_step_enters_error_loop node_creation_fails 1 process_start rfl
      (Or.inr (Or.inl (by decide))) (fun _ h => absurd h (by decide))⟩

theorem filter_releases_of_loop_calls (l : List Call)
    (h : ∀ x ∈ l, x = Call.delay 200 ∨ ∃ b, x = Call.digitalWrite LED_PIN b) :
    l.filter Call.releases = [] := by
  rw [List.filter_eq_nil_iff]
  intro x hx
  rcases h x hx with rfl | ⟨b, rfl⟩ <;> simp [Call.releases]

theorem initialize_ros_error_loop_trace (mw : Middleware) (fuel : Nat)
    (s0 s : NodeState) (hs0 : s0.uros_initialized = false)
    (h : initialize_ros mw fuel s0 = Outcome.error_loop s) :
    s.uros_initialized = false ∧
    ∃ l, s.calls = s0.calls ++ l ∧ l.filter Call.releases = [] := by
  cases hE : early_failure mw with
  | some n =>
    obtain ⟨s1, e1, f1, c1⟩ := initialize_ros_early mw fuel s0 hs0 n hE
    obtain ⟨-, -, -, -, -, -, -, r⟩ := early_failure_shape mw n hE
    rw [e1] at h
    injection h with h
    subst h
    exact ⟨f1, _, c1, r⟩
  | none =>
    obtain ⟨hR, hK⟩ := initialize_ros_late mw fuel s0 hs0 hE
    obtain ⟨-, -, -, -, q⟩ := calls_before_publisher_facts mw hE
    cases hF : first_ok mw.rclc_publisher_init_default fuel 0 with
    | none =>
      obtain ⟨s1, e1, -⟩ := hR hF
      rw [e1] at h
      cases h
    | some k =>
      obtain ⟨hT, hA, hS⟩ := hK k hF
      obtain ⟨-, -, -, -, a⟩ := attempts_publisher_facts mw.rclc_publisher_init_default 0 (k + 1)
      by_cases h7 : mw.rclc_timer_init_default = RCL_RET_OK
      · by_cases h8 : mw.rclc_executor_add_timer = RCL_RET_OK
        · obtain ⟨s1, e1, -⟩ := hS h7 h8
          rw [e1] at h
          cases h
        · obtain ⟨s1, e1, f1, c1⟩ := hA h7 h8
          rw [e1] at h
          injection h with h
          subst h
          exact ⟨f1, _, c1, by simp [List.filter_append, q, a, Call.releases]⟩
      · obtain ⟨s1, e1, f1, c1⟩ := hT h7
        rw [e1] at h
        injection h with h
        subst h
        exact ⟨f1, _, c1, by simp [List.filter_append, q, a, Call.releases]⟩

/-- C8 (as amended): when a fail-fast step of `initialize_ros`, started with
`uros_initialized = false`, fails and the error loop is entered, the teardown
that `error_loop` performs is the no-op of the guard: `uros_initialized` is
still false, so no release call is made for any resource created so far, the
calls made are exactly those of the bring-up, a further `teardown_ros`
changes nothing, and no release call is made in the loop either. -/
theorem error_loop_teardown_releases_nothing (mw : Middleware) (fuel : Nat)
    (s0 s : NodeState) (hs0 : s0.uros_initialized = false)
    (h : initialize_ros mw fuel s0 = Outcome.error_loop s) :
    s.uros_initialized = false ∧
    (calls_since s0 s).filter Call.releases = [] ∧
    teardown_ros mw s = s ∧
    ∀ n, (error_loop_turns n s).uros_initialized = false ∧
      (calls_since s0 (error_loop_turns n s)).filter Call.releases = [] := by
  obtain ⟨f, l, c, r⟩ := initialize_ros_error_loop_trace mw fuel s0 s hs0 h
  refine ⟨f, ?_, teardown_ros_of_not_initialized mw s f, fun n => ?_⟩
  · rw [calls_since_append s0 s l c, r]
  · obtain ⟨a, l2, b, d⟩ := error_loop_turns_spec n s
    refine ⟨by rw [a, f], ?_⟩
    have e : (error_loop_turns n s).calls = s0.calls ++ (l ++ l2) := by
      rw [b, c, List.append_assoc]
    rw [calls_since_append s0 _ _ e, List.filter_append, r,
      filter_releases_of_loop_calls l2 d]
    rfl

/-- The creation of the node fails at process start, after the support object
has been created. -/
theorem error_loop_teardown_releases_nothing_witness :
    (process_start.uros_initialized = false ∧
      initialize_ros node_creation_fails 1 process_start
        = Outcome.error_loop node_failure_state) ∧
    node_failure_state.uros_initialized = false ∧
    (calls_since process_start node_failure_state).filter Call.releases = [] ∧
    teardown_ros node_creation_fails node_failure_state = node_failure_state ∧
    ∀ n, (error_loop_turns n node_failure_state).uros_initialized = false ∧
      (calls_since process_start (error_loop_turns n node_failure_state)).filter
        Call.releases = [] :=
  ⟨by decide,
    error_loop_teardown_releases_nothing node_creation_fails 1 process_start
      node_failure_state (by decide) (by decide)⟩

/-- C8 as stated fails: when the creation of the node fails after the support
object has been created, `initialize_ros` enters the error loop, the only
resource created so far is the support object, and the teardown of
`error_loop` makes no release call at all: `rclc_support_fini` is never
called. -/
theorem error_loop_after_node_failure_releases_nothing :
    ∃ s, initialize_ros node_creation_fails 1 process_start = Outcome.error_loop s ∧
      s.calls.filter Call.creates = [Call.rclc_support_init RCL_RET_OK] ∧
      s.calls.filter Call.releases = [] ∧
      Call.rclc_support_fini node_creation_fails.rclc_support_fini ∉ s.calls ∧
      s.calls =
        [Call.set_microros_wifi_transports,
         Call.rcl_get_default_allocator,
         Call.rclc_support_init RCL_RET_OK,
         Call.rcl_get_zero_initialized_node,
         Call.rclc_node_init_default "control_node" "robot" 1] := by
  refine ⟨_, rfl, ?_, ?_, ?_, ?_⟩ <;> decide

/-- C9: from `uros_initialized = false`, on every run of `initialize_ros` that
returns with `uros_initialized = true` the endpoints registered with the
executor are the service, then the timer, the executor was created once, with
capacity `num_execution_handles`, and the number of registered endpoints
equals that capacity; and on every run, however it ends, the number of `add`
calls made on the executor is at most `num_execution_handles`. -/
theorem executor_handles_match_capacity (mw : Middleware) (fuel : Nat) (s0 : NodeState)
    (hs0 : s0.uros_initialized = false) :
    (∀ s, initialize_ros mw fuel s0 = Outcome.returned s → s.uros_initialized = true →
      registered (calls_since s0 s) =
        [Call.rclc_executor_add_service RCL_RET_OK, Call.rclc_executor_add_timer RCL_RET_OK] ∧
      declared_capacity (calls_since s0 s) = [num_execution_handles] ∧
      ((registered (calls_since s0 s)).length : Int) = num_execution_handles) ∧
    (∀ s, (initialize_ros mw fuel s0).state? = some s →
      ((add_calls (calls_since s0 s)).length : Int) ≤ num_execution_handles) := by
  cases hE : early_failure mw with
  | some n =>
    obtain ⟨s1, e1, -, c1⟩ := initialize_ros_early mw fuel s0 hs0 n hE
    obtain ⟨-, -, -, -, -, -, r, -⟩ := early_failure_shape mw n hE
    refine ⟨fun s h => ?_, fun s h => ?_⟩
    · rw [e1] at h
      cases h
    · rw [e1] at h
      simp only [Outcome.state?, Option.some.injEq] at h
      subst h
      rw [calls_since_append s0 s1 _ c1]
      simp only [num_execution_handles]
      omega
  | none =>
    obtain ⟨hR, hK⟩ := initialize_ros_late mw fuel s0 hs0 hE
    obtain ⟨-, qa, qr, qd, -⟩ := calls_before_publisher_facts mw hE
    cases hF : first_ok mw.rclc_publisher_init_default fuel 0 with
    | none =>
      obtain ⟨s1, e1, -, c1⟩ := hR hF
      obtain ⟨-, aa, -, -, -⟩ := attempts_publisher_facts mw.rclc_publisher_init_default 0 fuel
      refine ⟨fun s h => ?_, fun s h => ?_⟩
      · rw [e1] at h
        cases h
      · rw [e1] at h
        simp only [Outcome.state?, Option.some.injEq] at h
        subst h
        rw [calls_since_append s0 s1 _ c1]
        have : add_calls (calls_before_publisher mw ++
            attempts (Call.rclc_publisher_init_default "chatter")
              mw.rclc_publisher_init_default 0 fuel)
            = [Call.rclc_executor_add_service RCL_RET_OK] := by
          unfold add_calls at qa aa ⊢
          rw [List.filter_append, qa, aa]
          rfl
        rw [this]
        decide
    | some k =>
      obtain ⟨hT, hA, hS⟩ := hK k hF
      obtain ⟨-, aa, ar, ad, -⟩ :=
        attempts_publisher_facts mw.rclc_publisher_init_default 0 (k + 1)
      have hadd : ∀ l, add_calls (calls_before_publisher mw ++
            attempts (Call.rclc_publisher_init_default "chatter")
              mw.rclc_publisher_init_default 0 (k + 1) ++ l)
            = Call.rclc_executor_add_service RCL_RET_OK :: add_calls l := by
        intro l
        unfold add_calls at qa aa ⊢
        rw [List.filter_append, List.filter_append, qa, aa]
        rfl
      by_cases h7 : mw.rclc_timer_init_default = RCL_RET_OK
      · by_cases h8 : mw.rclc_executor_add_timer = RCL_RET_OK
        · obtain ⟨s1, e1, -, c1⟩ := hS h7 h8
          refine ⟨fun s h _ => ?_, fun s h => ?_⟩
          · rw [e1] at h
            injection h with h
            subst h
            rw [calls_since_append s0 s1 _ c1]
            have hreg : registered (calls_before_publisher mw ++
                attempts (Call.rclc_publisher_init_default "chatter")
                  mw.rclc_publisher_init_default 0 (k + 1) ++
                [Call.rclc_timer_init_default (RCL_MS_TO_NS 5000) mw.rclc_timer_init_default,
                 Call.rclc_executor_add_timer mw.rclc_executor_add_timer])
                = [Call.rclc_executor_add_service RCL_RET_OK,
                   Call.rclc_executor_add_timer RCL_RET_OK] := by
              unfold registered at qr ar ⊢
              rw [List.filter_append, List.filter_append, qr, ar, h8]
              rfl
            have hcap : declared_capacity (calls_before_publisher mw ++
                attempts (Call.rclc_publisher_init_default "chatter")
                  mw.rclc_publisher_init_default 0 (k + 1) ++
                [Call.rclc_timer_init_default (RCL_MS_TO_NS 5000) mw.rclc_timer_init_default,
                 Call.rclc_executor_add_timer mw.rclc_executor_add_timer])
                = [num_execution_handles] := by
              unfold declared_capacity at qd ad ⊢
              rw [List.filterMap_append, List.filterMap_append, qd, ad]
              rfl
            rw [hreg, hcap]
            exact ⟨rfl, rfl, by decide⟩
          · rw [e1] at h
            simp only [Outcome.state?, Option.some.injEq] at h
            subst h
            rw [calls_since_append s0 s1 _ c1, hadd]
            simp [add_calls, num_execution_handles]
        · obtain ⟨s1, e1, -, c1⟩ := hA h7 h8
          refine ⟨fun s h => ?_, fun s h => ?_⟩
          · rw [e1] at h
            cases h
          · rw [e1] at h
            simp only [Outcome.state?, Option.some.injEq] at h
            subst h
            rw [calls_since_append s0 s1 _ c1, hadd]
            simp [add_calls, num_execution_handles]
      · obtain ⟨s1, e1, -, c1⟩ := hT h7
        refine ⟨fun s h => ?_, fun s h => ?_⟩
        · rw [e1] at h
          cases h
        · rw [e1] at h
          simp only [Outcome.state?, Option.some.injEq] at h
          subst h
          rw [calls_since_append s0 s1 _ c1, hadd]
          simp [add_calls, num_execution_handles]

/-- Bring-up at process start on a middleware where every call succeeds. -/
theorem executor_handles_match_capacity_witness :
    process_start.uros_initialized = false ∧
    (registered (calls_since process_start fresh_node) =
        [Call.rclc_executor_add_service RCL_RET_OK, Call.rclc_executor_add_timer RCL_RET_OK] ∧
      declared_capacity (calls_since process_start fresh_node) = [num_execution_handles] ∧
      ((registered (calls_since process_start fresh_node)).length : Int)
        = num_execution_handles) ∧
    ((add_calls (calls_since process_start fresh_node)).length : Int)
      ≤ num_execution_handles :=
  ⟨rfl,
    (executor_handles_match_capacity all_ok 1 process_start rfl).1 fresh_node
      (by decide) (by decide),
    (executor_handles_match_capacity all_ok 1 process_start rfl).2 fresh_node (by decide)⟩

end Node
